import Mathlib

set_option linter.unusedVariables false

/-
Verification of rust-seclib: a labeled-value library enforcing an
information-flow security lattice.

Embedding notes.  In the Rust source a security level is a zero-or-more-field
marker type, and the dominance relation "S2 dominates S" is the trait impl
`S2: SecurityLevel<S>`.  We embed a universe of levels as a Lean type `L`
together with a decidable relation `dominates : L → L → Bool` recording
exactly the declared trait impls (no automatic transitive closure), and a
family `Tag : L → Type` giving, for each level, the type of its runtime
values (the Rust level structs `Low` and `High` are field-less, so their
`Tag` is `Unit`; the trait allows user level types whose values carry data).
A trait bound of the Rust code becomes an explicit `= true` hypothesis of
the corresponding Lean definition, so "the call is unrepresentable" becomes
"the hypotheses are unsatisfiable".
-/

namespace Seclib

/-- Embedding of the module `security_level`: a type of security levels with a
declared dominance relation.  `dominates s2 s = true` embeds the existence of
the Rust impl `S2: SecurityLevel<S>`; a pair with no declared impl maps to
`false`.  `Tag s` is the type of runtime values of the level `s`. -/
class SecLattice (L : Type) where
  dominates : L → L → Bool
  Tag : L → Type

open SecLattice (dominates Tag)

/-- Embedding of `struct Sec<S, A>` from `lib.rs`: a payload `data : A`
labeled with the phantom level `S`.  The `security_level : PhantomData<S>`
field is a zero-sized marker, embedded as `Unit`. -/
structure Sec {L : Type} [SecLattice L] (S : L) (A : Type) where
  security_level : Unit
  data : A

/-- Embedding of `Sec::new`: wraps the data, making no mention of the level
beyond the phantom parameter. -/
def Sec.new {L : Type} [SecLattice L] {S : L} {A : Type} (data : A) : Sec S A :=
  ⟨(), data⟩

/-- Embedding of `Sec::map`: applies `f` to the payload and keeps the same
level `S` (the Rust return type is `Sec<S, B>`), reusing the phantom field. -/
def Sec.map {L : Type} [SecLattice L] {S : L} {A B : Type}
    (v : Sec S A) (f : A → B) : Sec S B :=
  ⟨v.security_level, f v.data⟩

/-- Embedding of `Sec::and_then`: monadic bind.  The continuation has type
`A → Sec S B` with the same level `S` as the input (in Rust,
`F: FnOnce(A) -> Sec<S, B>`), so a continuation producing a different level
does not typecheck; the continuation result is returned directly. -/
def Sec.and_then {L : Type} [SecLattice L] {S : L} {A B : Type}
    (v : Sec S A) (f : A → Sec S B) : Sec S B :=
  f v.data

/-- Embedding of `Sec::reveal<S2>(self, _: S2) -> A` with its bound
`S2: SecurityLevel<S> + SecurityLevel`.  The runtime argument is a value
`w : Tag s2` of the level type, which the body discards.  The hypotheses
embed the trait bounds: `hS` is the impl-block bound `S: SecurityLevel`
(also forced by the trait's own where-clause), `h2` is `S2: SecurityLevel`,
and `h` is `S2: SecurityLevel<S>`.  The body returns the raw payload. -/
def Sec.reveal {L : Type} [SecLattice L] {S : L} {A : Type} (v : Sec S A)
    (s2 : L) (w : Tag s2)
    (hS : dominates S S = true) (h2 : dominates s2 s2 = true)
    (h : dominates s2 S = true) : A :=
  v.data

/-- Embedding of `Sec::lift<S2>(self, _: S2) -> Sec<S2, A>` with the same
bounds as `reveal`: rewraps the payload via `Sec::new` at the target level. -/
def Sec.lift {L : Type} [SecLattice L] {S : L} {A : Type} (v : Sec S A)
    (s2 : L) (w : Tag s2)
    (hS : dominates S S = true) (h2 : dominates s2 s2 = true)
    (h : dominates s2 S = true) : Sec s2 A :=
  Sec.new v.data

/-- Embedding of `impl From<A> for Sec<S, A>`: delegates to `Sec::new`. -/
def Sec.fromVal {L : Type} [SecLattice L] {S : L} {A : Type} (data : A) : Sec S A :=
  Sec.new data

/-- Callability of `reveal`/`lift` from a value at level `s` with proof level
`s2`: the conjunction of the three trait bounds of their Rust signatures.
The call `v.reveal s2 w _ _ _` (or `v.lift`) can be formed exactly when this
proposition holds. -/
def CanReveal {L : Type} [SecLattice L] (s2 s : L) : Prop :=
  dominates s s = true ∧ dominates s2 s2 = true ∧ dominates s2 s = true

instance {L : Type} [SecLattice L] (s2 s : L) : Decidable (CanReveal s2 s) := by
  unfold CanReveal; infer_instance

/-- Embedding of the two provided levels from `security_level.rs`:
`struct Low;` and `struct High;`. -/
inductive Level2 where
  | low
  | high
deriving DecidableEq

/-- Embedding of the three declared impls of `security_level.rs`:
`impl SecurityLevel for Low` (Low ≥ Low), `impl SecurityLevel<Low> for High`
(High ≥ Low), `impl SecurityLevel for High` (High ≥ High).  No impl gives
Low ≥ High, so that pair is `false`.  Both level structs are field-less, so
their runtime value type is `Unit`. -/
instance : SecLattice Level2 where
  dominates := fun a b =>
    match a, b with
    | .low, .low => true
    | .high, .low => true
    | .high, .high => true
    | .low, .high => false
  Tag := fun _ => Unit

/-- Three-level lattice of spec scenario 5, built through the same trait
mechanism the crate exposes: levels Low, Mid, High with exactly the edges
Low ≥ Low, Mid ≥ Mid, Mid ≥ Low, High ≥ High, High ≥ Mid declared, and
High ≥ Low deliberately not declared. -/
inductive Level3 where
  | low
  | mid
  | high
deriving DecidableEq

instance : SecLattice Level3 where
  dominates := fun a b =>
    match a, b with
    | .low, .low => true
    | .mid, .mid => true
    | .mid, .low => true
    | .high, .high => true
    | .high, .mid => true
    | _, _ => false
  Tag := fun _ => Unit

/-- User-defined lattice whose level values carry runtime data, as the
`SecurityLevel` trait permits (it only asks for `Debug`; the crate docs
mention levels such as User/Moderator/Administrator).  Each runtime value of
a level is a `Nat` badge number; the dominance relation ignores it. -/
inductive BadgeLevel where
  | user
  | admin
deriving DecidableEq

instance : SecLattice BadgeLevel where
  dominates := fun a b =>
    match a, b with
    | .user, .user => true
    | .admin, .user => true
    | .admin, .admin => true
    | .user, .admin => false
  Tag := fun _ => Nat

/-- Labeled value packaged with its level and payload type, to quantify over
the results of arbitrary sequences of the public operations. -/
structure PSec (L : Type) [SecLattice L] : Type 1 where
  lvl : L
  A : Type
  val : Sec lvl A

/-- One application of a public level-relevant operation of the crate to an
existing labeled value: `map` and `and_then` keep the level, `lift` moves to
a level `s2` under the dominance bounds of its signature.  `reveal` produces
no labeled value and `new`/`From` take no labeled value as input, so neither
contributes a step. -/
inductive Step {L : Type} [SecLattice L] : PSec L → PSec L → Prop where
  | map : ∀ (p : PSec L) {B : Type} (f : p.A → B),
      Step p ⟨p.lvl, B, p.val.map f⟩
  | and_then : ∀ (p : PSec L) {B : Type} (f : p.A → Sec p.lvl B),
      Step p ⟨p.lvl, B, p.val.and_then f⟩
  | lift : ∀ (p : PSec L) (s2 : L) (w : Tag s2)
      (hS : dominates p.lvl p.lvl = true) (h2 : dominates s2 s2 = true)
      (h : dominates s2 p.lvl = true),
      Step p ⟨s2, p.A, p.val.lift s2 w hS h2 h⟩

/-- Reachability by any finite sequence of public operations. -/
abbrev Reaches {L : Type} [SecLattice L] : PSec L → PSec L → Prop :=
  Relation.ReflTransGen Step

/-- Single declared dominance edge, oriented upwards: `DomEdge a b` holds
when `b` dominates `a` per the declared lattice. -/
def DomEdge {L : Type} [SecLattice L] (a b : L) : Prop :=
  dominates b a = true

/-!
Claim theorems.
-/

/-- C1: for every payload `x` at a level `Lv` of the provided lattice and
every proof level `P`, `reveal` is callable exactly when `P` dominates `Lv`
per the declared impls, and every call returns the raw payload unchanged.
A pair with no declared edge admits no call at all, deterministically: the
bounds of the signature are then false propositions. -/
theorem reveal_sound (P Lv : Level2) :
    (CanReveal P Lv ↔ dominates P Lv = true) ∧
    ∀ (A : Type) (x : A) (w : Tag P) (hS : dominates Lv Lv = true)
      (h2 : dominates P P = true) (h : dominates P Lv = true),
      (Sec.new (S := Lv) x).reveal P w hS h2 h = x := by
  refine ⟨?_, fun A x w hS h2 h => rfl⟩
  cases P <;> cases Lv <;> decide

/-- Witness for C1 at `P = High`, `Lv = Low`, payload 5. -/
theorem reveal_sound_witness :
    (CanReveal Level2.high Level2.low ↔ dominates Level2.high Level2.low = true) ∧
    (Sec.new (S := Level2.low) (5 : Nat)).reveal Level2.high ()
      (by decide) (by decide) (by decide) = 5 :=
  ⟨(reveal_sound Level2.high Level2.low).1,
   (reveal_sound Level2.high Level2.low).2 Nat 5 () (by decide) (by decide) (by decide)⟩

/-- C2: any finite sequence of public operations applied to a labeled value
at level `p.lvl` can only reach a labeled value whose level lies above
`p.lvl` along declared dominance edges: `map`/`and_then` keep the level and
`lift` is the only level-changing operation, gated by the dominance bound,
so the level only stays or rises and no downgrade path exists. -/
theorem no_downgrade {L : Type} [SecLattice L] {p q : PSec L} (hr : Reaches p q) :
    Relation.ReflTransGen DomEdge p.lvl q.lvl := by
  induction hr with
  | refl => exact Relation.ReflTransGen.refl
  | tail hs st ih =>
    cases st with
    | map f => exact ih
    | and_then f => exact ih
    | lift s2 w hS h2 h => exact Relation.ReflTransGen.tail ih h

/-- Witness for C2: lifting a Low value to High is a reachable sequence, and
the theorem yields the dominance chain from Low up to High. -/
theorem no_downgrade_witness :
    Relation.ReflTransGen DomEdge Level2.low Level2.high :=
  no_downgrade (p := ⟨Level2.low, Nat, Sec.new (5 : Nat)⟩)
    (Relation.ReflTransGen.single
      (Step.lift ⟨Level2.low, Nat, Sec.new (5 : Nat)⟩ Level2.high ()
        (by decide) (by decide) (by decide)))

/-- C3: for every payload `x` at a level `Lv` of the provided lattice and
every target level `P`, `lift` is callable exactly when `P` dominates `Lv`
per the declared impls, and every call returns a labeled value at exactly
level `P` (its type is `Sec P A`) wrapping the same payload `x`. -/
theorem lift_monotone (P Lv : Level2) :
    (CanReveal P Lv ↔ dominates P Lv = true) ∧
    ∀ (A : Type) (x : A) (w : Tag P) (hS : dominates Lv Lv = true)
      (h2 : dominates P P = true) (h : dominates P Lv = true),
      (Sec.new (S := Lv) x).lift P w hS h2 h = Sec.new (S := P) x := by
  refine ⟨?_, fun A x w hS h2 h => rfl⟩
  cases P <;> cases Lv <;> decide

/-- Witness for C3 at `P = High`, `Lv = Low`, payload 5. -/
theorem lift_monotone_witness :
    (CanReveal Level2.high Level2.low ↔ dominates Level2.high Level2.low = true) ∧
    (Sec.new (S := Level2.low) (5 : Nat)).lift Level2.high ()
      (by decide) (by decide) (by decide) = Sec.new (S := Level2.high) (5 : Nat) :=
  ⟨(lift_monotone Level2.high Level2.low).1,
   (lift_monotone Level2.high Level2.low).2 Nat 5 () (by decide) (by decide) (by decide)⟩

/-- C4: mapping `f` over a freshly constructed value at any level `S` of any
lattice yields the construction, at the same level `S`, of `f x`
(the equation form of "apply `f` exactly once and keep the level"). -/
theorem map_construct {L : Type} [SecLattice L] (S : L) {A B : Type}
    (x : A) (f : A → B) :
    (Sec.new (S := S) x).map f = Sec.new (f x) :=
  rfl

/-- C5: and_then returns the continuation's result applied to the raw
payload, directly; its type `(A → Sec S B) → Sec S B` fixes the
continuation's level to the input's level `S`, so the result is at level `S`
and a continuation producing a different level is not typeable at all. -/
theorem and_then_same_level {L : Type} [SecLattice L] {S : L} {A B : Type}
    (v : Sec S A) (f : A → Sec S B) :
    v.and_then f = f v.data :=
  rfl

/-- C6: in the provided two-level lattice no impl declares Low ≥ High, so
the dominance query answers false and a reveal of a High value with a Low
proof level admits no call: its bounds are unsatisfiable, hence it can never
return the payload. -/
theorem low_cannot_reveal_high :
    dominates Level2.low Level2.high = false ∧ ¬ CanReveal Level2.low Level2.high := by
  decide

/-- C7: in the three-level lattice of spec scenario 5, Mid ≥ Low and
High ≥ Mid are declared and usable, yet High ≥ Low is not derived: the
query answers false and reveal/lift of a Low value requiring High admit no
call, despite the declared chain. -/
theorem no_auto_transitivity :
    CanReveal Level3.mid Level3.low ∧ CanReveal Level3.high Level3.mid ∧
    dominates Level3.high Level3.low = false ∧ ¬ CanReveal Level3.high Level3.low := by
  decide

/-- C8: each of the provided levels dominates itself (the two reflexive
impls of `security_level.rs`), and revealing a value at its own level
succeeds and returns the payload. -/
theorem dominance_reflexive (Lv : Level2) :
    dominates Lv Lv = true ∧
    ∀ (A : Type) (x : A) (w : Tag Lv) (hS : dominates Lv Lv = true)
      (h2 : dominates Lv Lv = true) (h : dominates Lv Lv = true),
      (Sec.new (S := Lv) x).reveal Lv w hS h2 h = x := by
  refine ⟨?_, fun A x w hS h2 h => rfl⟩
  cases Lv <;> decide

/-- Witness for C8 at `Lv = High`, payload 3. -/
theorem dominance_reflexive_witness :
    dominates Level2.high Level2.high = true ∧
    (Sec.new (S := Level2.high) (3 : Nat)).reveal Level2.high ()
      (by decide) (by decide) (by decide) = 3 :=
  ⟨(dominance_reflexive Level2.high).1,
   (dominance_reflexive Level2.high).2 Nat 3 () (by decide) (by decide) (by decide)⟩

/-- C9: reveal and lift are constant in the runtime value of their proof
argument: for a fixed labeled value and a fixed admissible proof level, any
two runtime tag values (and any proofs of the bounds) yield identical
results — the gate depends only on the declared relation, never on runtime
data carried by the proof value, which the bodies discard. -/
theorem proof_value_irrelevant {L : Type} [SecLattice L] {S : L} {A : Type}
    (v : Sec S A) (s2 : L) (w w' : Tag s2)
    (hS hS' : dominates S S = true) (h2 h2' : dominates s2 s2 = true)
    (h h' : dominates s2 S = true) :
    v.reveal s2 w hS h2 h = v.reveal s2 w' hS' h2' h' ∧
    v.lift s2 w hS h2 h = v.lift s2 w' hS' h2' h' :=
  ⟨rfl, rfl⟩

/-- Witness for C9 on the badge lattice, whose runtime level values carry
data: badge numbers 3 and 4 are distinct runtime proof values and give the
same reveal and lift results. -/
theorem proof_value_irrelevant_witness :
    ((Sec.new (S := BadgeLevel.user) (7 : Nat)).reveal BadgeLevel.admin
        ((3 : Nat) : Tag BadgeLevel.admin) (by decide) (by decide) (by decide)
      = (Sec.new (S := BadgeLevel.user) (7 : Nat)).reveal BadgeLevel.admin
        ((4 : Nat) : Tag BadgeLevel.admin) (by decide) (by decide) (by decide)) ∧
    ((Sec.new (S := BadgeLevel.user) (7 : Nat)).lift BadgeLevel.admin
        ((3 : Nat) : Tag BadgeLevel.admin) (by decide) (by decide) (by decide)
      = (Sec.new (S := BadgeLevel.user) (7 : Nat)).lift BadgeLevel.admin
        ((4 : Nat) : Tag BadgeLevel.admin) (by decide) (by decide) (by decide)) :=
  proof_value_irrelevant (Sec.new (S := BadgeLevel.user) (7 : Nat)) BadgeLevel.admin
    ((3 : Nat) : Tag BadgeLevel.admin) ((4 : Nat) : Tag BadgeLevel.admin)
    (by decide) (by decide) (by decide) (by decide) (by decide) (by decide)

/-- C10: map is functorial: mapping the identity is the identity and mapping
a composition is the composition of the maps, the level unchanged throughout
by the type of `map`. -/
theorem map_functorial {L : Type} [SecLattice L] {S : L} {A B C : Type}
    (v : Sec S A) (f : A → B) (g : B → C) :
    v.map id = v ∧ (v.map f).map g = v.map (g ∘ f) :=
  ⟨rfl, rfl⟩

end Seclib
